import Mathlib

/-!
Shallow embedding of the FRS development platform scripts
`scripts/deployment/health_check.py` and `scripts/migration/analyze_mdm_usage.py`,
together with theorems settling the specification claims about them.

Python strings are modelled as Lean `String` and, where character-level
operations matter, as `List Char`.  The helper functions below translate the
Python string primitives used by the scripts (`in`, `str.split`, `str.strip`,
`str.rstrip`, `str.lower`, `int(...)`) into executable Lean functions.
-/

/-- Translation of the Python substring test `needle in haystack`
(on character lists). -/
def containsSub (needle : List Char) : List Char → Bool
  | [] => needle.isEmpty
  | c :: rest => needle.isPrefixOf (c :: rest) || containsSub needle rest

/-- Translation of Python `str.split(sep)` for a one-character separator:
keeps empty segments, and the empty string splits to one empty segment. -/
def pySplitChar (sep : Char) : List Char → List (List Char)
  | [] => [[]]
  | c :: rest =>
    if c = sep then [] :: pySplitChar sep rest
    else
      match pySplitChar sep rest with
      | g :: gs => (c :: g) :: gs
      | [] => [[c]]

/-- Translation of Python `str.split()` with no argument: split on runs of
whitespace and discard empty segments. -/
def pySplitWs (cs : List Char) : List (List Char) :=
  (pySplitChar ' ' (cs.map fun c => if c.isWhitespace then ' ' else c)).filter
    (fun g => !g.isEmpty)

/-- Translation of Python `str.strip()` (remove leading and trailing
whitespace). -/
def pyStrip (cs : List Char) : List Char :=
  ((cs.dropWhile Char.isWhitespace).reverse.dropWhile Char.isWhitespace).reverse

/-- Translation of Python `s.rstrip(ch)` for a single character. -/
def pyRstrip (ch : Char) (cs : List Char) : List Char :=
  (cs.reverse.dropWhile (fun c => c = ch)).reverse

/-- Digits of a decimal numeral folded into a natural number. -/
def digitsToNat (cs : List Char) : Nat :=
  cs.foldl (fun n c => n * 10 + (c.toNat - '0'.toNat)) 0

/-- Translation of Python `int(s)` on the inputs the scripts feed it: an
optional minus sign followed by decimal digits; anything else raises
`ValueError`, modelled as `none`. -/
def parseInt? (cs : List Char) : Option Int :=
  match cs with
  | '-' :: rest =>
    if !rest.isEmpty && rest.all Char.isDigit then some (-(digitsToNat rest : Int))
    else none
  | _ =>
    if !cs.isEmpty && cs.all Char.isDigit then some (digitsToNat cs : Int)
    else none

/-- Scanning loop of `replaceSub`.  Each step consumes at least one input
character, so an initial step budget of the input length never runs out. -/
def replaceSubGo (pat repl : List Char) : Nat → List Char → List Char
  | _, [] => []
  | 0, cs => cs
  | n + 1, c :: rest =>
    if pat.isPrefixOf (c :: rest) then
      repl ++ replaceSubGo pat repl n (rest.drop (pat.length - 1))
    else
      c :: replaceSubGo pat repl n rest

/-- Translation of Python `str.replace(pat, repl)`: replace every
(left-to-right, non-overlapping) occurrence of `pat`.  The scripts only call
it with the non-empty pattern `"SelectBox"`. -/
def replaceSub (pat repl cs : List Char) : List Char :=
  replaceSubGo pat repl cs.length cs

namespace HealthCheck

/-! Embedding of `scripts/deployment/health_check.py`.

Each `_check_*` method of `InstanceHealthChecker` interacts with the outside
world (HTTP requests, subprocesses) and then appends exactly one
`CheckResult` to `self.results`.  The embedding makes the external
observation an explicit outcome value (one constructor per distinct
control-flow source in the Python `try`/`except` structure) and each check a
function from the outcome and the current results list to the new results
list.  The `details` dictionaries attached to results are not modelled; no
claim depends on them. -/

/-- Health check status (enum `HealthStatus`). -/
inductive HealthStatus where
  | HEALTHY
  | DEGRADED
  | UNHEALTHY
  | UNKNOWN
deriving DecidableEq, Repr

/-- Result of a single health check (dataclass `CheckResult`). -/
structure CheckResult where
  check_name : String
  status : HealthStatus
  message : String
deriving DecidableEq, Repr

/-- Instance configuration: the fields of the `INSTANCES` entries read by
the checker. -/
structure Config where
  web_port : Nat
  db_port : Nat
  version : String
deriving DecidableEq, Repr

/-- Outcome of the HTTP GET issued by `_check_web_interface`. -/
inductive WebOutcome where
  | response (status_code : Nat)
  | connectionError
  | timeout
  | otherError (msg : String)
deriving DecidableEq, Repr

/-- Embedding of `_check_web_interface`. -/
def checkWebInterface (cfg : Config) (o : WebOutcome) (results : List CheckResult) :
    List CheckResult :=
  match o with
  | .response code =>
    if code = 200 then
      results ++ [⟨"Web Interface", .HEALTHY,
        "Web interface responding (HTTP " ++ toString code ++ ")"⟩]
    else
      results ++ [⟨"Web Interface", .DEGRADED,
        "Web interface returned HTTP " ++ toString code⟩]
  | .connectionError =>
    results ++ [⟨"Web Interface", .UNHEALTHY,
      "Cannot connect to web interface on port " ++ toString cfg.web_port⟩]
  | .timeout =>
    results ++ [⟨"Web Interface", .DEGRADED, "Web interface timeout (>10s)"⟩]
  | .otherError e =>
    results ++ [⟨"Web Interface", .UNHEALTHY, "Error checking web interface: " ++ e⟩]

/-- Outcome of the `mysql` subprocess calls in `_check_database_connection`:
`ran rc1 rc2` gives the return codes of the first attempt and of the retry
(the retry is only consulted when the first return code is nonzero). -/
inductive DbOutcome where
  | ran (returncode1 : Int) (returncode2 : Int)
  | timeoutExpired
  | mysqlNotFound
  | otherError (msg : String)
deriving DecidableEq, Repr

/-- Embedding of `_check_database_connection`. -/
def checkDatabaseConnection (cfg : Config) (o : DbOutcome) (results : List CheckResult) :
    List CheckResult :=
  match o with
  | .ran rc1 rc2 =>
    if rc1 = 0 then
      results ++ [⟨"Database Connection", .HEALTHY,
        "Database accessible on port " ++ toString cfg.db_port⟩]
    else if rc2 = 0 then
      results ++ [⟨"Database Connection", .HEALTHY,
        "Database accessible on port " ++ toString cfg.db_port⟩]
    else
      results ++ [⟨"Database Connection", .DEGRADED,
        "Database connection requires authentication (port " ++ toString cfg.db_port ++ ")"⟩]
  | .timeoutExpired =>
    results ++ [⟨"Database Connection", .DEGRADED, "Database connection timeout"⟩]
  | .mysqlNotFound =>
    results ++ [⟨"Database Connection", .UNKNOWN,
      "MySQL client not found (cannot verify database)"⟩]
  | .otherError e =>
    results ++ [⟨"Database Connection", .UNKNOWN, "Error checking database: " ++ e⟩]

/-- Outcome of the HTTP GET issued by `_check_admin_console`. -/
inductive AdminOutcome where
  | response (status_code : Nat)
  | exc (msg : String)
deriving DecidableEq, Repr

/-- Embedding of `_check_admin_console`. -/
def checkAdminConsole (o : AdminOutcome) (results : List CheckResult) :
    List CheckResult :=
  match o with
  | .response code =>
    if code ∈ [200, 302, 401] then
      results ++ [⟨"Admin Console", .HEALTHY, "Admin console accessible"⟩]
    else
      results ++ [⟨"Admin Console", .DEGRADED,
        "Admin console returned HTTP " ++ toString code⟩]
  | .exc e =>
    results ++ [⟨"Admin Console", .DEGRADED, "Cannot access admin console: " ++ e⟩]

/-- Outcome of a subprocess call that either produced standard output or
raised an exception. -/
inductive SubprocessOutcome where
  | ran (stdout : String)
  | exc (msg : String)
deriving DecidableEq, Repr

/-- Embedding of `_check_process_running`: filter the `ps aux` output lines
for ones containing both the lowercase substring `joget` and the configured
version string. -/
def checkProcessRunning (cfg : Config) (o : SubprocessOutcome) (results : List CheckResult) :
    List CheckResult :=
  match o with
  | .ran stdout =>
    let joget_processes :=
      (pySplitChar '\n' stdout.data).filter fun line =>
        containsSub "joget".data (line.map Char.toLower) &&
          containsSub cfg.version.data line
    if joget_processes.isEmpty then
      results ++ [⟨"Process Status", .UNHEALTHY, "Joget process not found"⟩]
    else
      results ++ [⟨"Process Status", .HEALTHY,
        "Joget process running (version " ++ cfg.version ++ ")"⟩]
  | .exc e =>
    results ++ [⟨"Process Status", .UNKNOWN, "Error checking process: " ++ e⟩]

/-- Embedding of `_check_disk_space`: parse the `df -h /` output and
classify the used percentage; every parse failure path yields UNKNOWN. -/
def checkDiskSpace (o : SubprocessOutcome) (results : List CheckResult) :
    List CheckResult :=
  match o with
  | .ran stdout =>
    let lines := pySplitChar '\n' (pyStrip stdout.data)
    if lines.length ≥ 2 then
      let parts := pySplitWs (lines.getD 1 [])
      if parts.length ≥ 5 then
        match parseInt? (pyRstrip '%' (parts.getD 4 [])) with
        | some used_percent =>
          if used_percent < 80 then
            results ++ [⟨"Disk Space", .HEALTHY,
              "Disk space OK (" ++ toString used_percent ++ "% used)"⟩]
          else if used_percent < 90 then
            results ++ [⟨"Disk Space", .DEGRADED,
              "Disk space low (" ++ toString used_percent ++ "% used)"⟩]
          else
            results ++ [⟨"Disk Space", .UNHEALTHY,
              "Disk space critical (" ++ toString used_percent ++ "% used)"⟩]
        | none =>
          results ++ [⟨"Disk Space", .UNKNOWN, "Error checking disk space: ValueError"⟩]
      else
        results ++ [⟨"Disk Space", .UNKNOWN, "Could not parse disk space information"⟩]
    else
      results ++ [⟨"Disk Space", .UNKNOWN, "Could not parse disk space information"⟩]
  | .exc e =>
    results ++ [⟨"Disk Space", .UNKNOWN, "Error checking disk space: " ++ e⟩]

/-- Outcome of the `free -m` subprocess call in `_check_memory_usage`. -/
inductive MemOutcome where
  | ran (stdout : String)
  | freeNotFound
  | exc (msg : String)
deriving DecidableEq, Repr

/-- Embedding of `_check_memory_usage`.  The source computes
`int((used / total) * 100)` in floating point; it is modelled here by exact
integer division truncated toward zero, and division by a zero total is the
exception branch (ZeroDivisionError).  No claim depends on the value. -/
def checkMemoryUsage (o : MemOutcome) (results : List CheckResult) :
    List CheckResult :=
  match o with
  | .ran stdout =>
    let lines := pySplitChar '\n' (pyStrip stdout.data)
    if lines.length ≥ 2 then
      let parts := pySplitWs (lines.getD 1 [])
      if parts.length ≥ 3 then
        match parseInt? (parts.getD 1 []), parseInt? (parts.getD 2 []) with
        | some total, some used =>
          if total = 0 then
            results ++ [⟨"Memory Usage", .UNKNOWN,
              "Error checking memory: ZeroDivisionError"⟩]
          else
            let used_percent := Int.tdiv (used * 100) total
            if used_percent < 80 then
              results ++ [⟨"Memory Usage", .HEALTHY,
                "Memory usage OK (" ++ toString used_percent ++ "%)"⟩]
            else if used_percent < 90 then
              results ++ [⟨"Memory Usage", .DEGRADED,
                "Memory usage high (" ++ toString used_percent ++ "%)"⟩]
            else
              results ++ [⟨"Memory Usage", .UNHEALTHY,
                "Memory usage critical (" ++ toString used_percent ++ "%)"⟩]
        | _, _ =>
          results ++ [⟨"Memory Usage", .UNKNOWN, "Error checking memory: ValueError"⟩]
      else
        results ++ [⟨"Memory Usage", .UNKNOWN, "Could not parse memory information"⟩]
    else
      results ++ [⟨"Memory Usage", .UNKNOWN, "Could not parse memory information"⟩]
  | .freeNotFound =>
    results ++ [⟨"Memory Usage", .UNKNOWN, "Memory check not available on this platform"⟩]
  | .exc e =>
    results ++ [⟨"Memory Usage", .UNKNOWN, "Error checking memory: " ++ e⟩]

/-- Embedding of `_calculate_overall_status`. -/
def calculateOverallStatus (results : List CheckResult) : HealthStatus :=
  let unhealthy_count := results.countP fun r => r.status == .UNHEALTHY
  let degraded_count := results.countP fun r => r.status == .DEGRADED
  let unknown_count := results.countP fun r => r.status == .UNKNOWN
  if unhealthy_count > 0 then .UNHEALTHY
  else if degraded_count > 0 then .DEGRADED
  else if unknown_count > 0 then .UNKNOWN
  else .HEALTHY

/-- Observed outcomes of the six external interactions performed by
`run_all_checks`. -/
structure Outcomes where
  web : WebOutcome
  db : DbOutcome
  admin : AdminOutcome
  process : SubprocessOutcome
  disk : SubprocessOutcome
  memory : MemOutcome
deriving DecidableEq, Repr

/-- Embedding of `run_all_checks`: run the six checks in source order,
threading the results list, then compute the overall status. -/
def runAllChecks (cfg : Config) (o : Outcomes) : HealthStatus × List CheckResult :=
  let results : List CheckResult := []
  let results := checkWebInterface cfg o.web results
  let results := checkDatabaseConnection cfg o.db results
  let results := checkAdminConsole o.admin results
  let results := checkProcessRunning cfg o.process results
  let results := checkDiskSpace o.disk results
  let results := checkMemoryUsage o.memory results
  (calculateOverallStatus results, results)

/-! Specification-side descriptions, written from the wording of the claims,
to be compared with the embedded code. -/

/-- Overall status reduction as the specification words it: any UNHEALTHY
result wins, else any DEGRADED, else any UNKNOWN, else HEALTHY. -/
def overallStatusSpec (results : List CheckResult) : HealthStatus :=
  if results.any (fun r => r.status == .UNHEALTHY) then .UNHEALTHY
  else if results.any (fun r => r.status == .DEGRADED) then .DEGRADED
  else if results.any (fun r => r.status == .UNKNOWN) then .UNKNOWN
  else .HEALTHY

/-- Web-interface status mapping as the specification words it. -/
def webStatusSpec : WebOutcome → HealthStatus
  | .response code => if code = 200 then .HEALTHY else .DEGRADED
  | .connectionError => .UNHEALTHY
  | .timeout => .DEGRADED
  | .otherError _ => .UNHEALTHY

/-- Used disk percentage successfully parsed from the `df -h /` output, when
there is one. -/
def diskUsedPercent? (stdout : String) : Option Int :=
  let lines := pySplitChar '\n' (pyStrip stdout.data)
  if lines.length ≥ 2 then
    let parts := pySplitWs (lines.getD 1 [])
    if parts.length ≥ 5 then parseInt? (pyRstrip '%' (parts.getD 4 []))
    else none
  else none

/-- Disk-space status mapping as the specification words it: a parsed
percentage below 80 is HEALTHY, below 90 DEGRADED, otherwise UNHEALTHY, and
an unparseable output or an exception is UNKNOWN. -/
def diskStatusSpec : SubprocessOutcome → HealthStatus
  | .ran stdout =>
    match diskUsedPercent? stdout with
    | some p => if p < 80 then .HEALTHY else if p < 90 then .DEGRADED else .UNHEALTHY
    | none => .UNKNOWN
  | .exc _ => .UNKNOWN

end HealthCheck

namespace MDMAnalyzer

/-! Embedding of `scripts/migration/analyze_mdm_usage.py`.

The analyzer walks JSON application data.  JSON values are modelled by
`JValue`; Python dictionaries become association lists (key lookup returns
the first binding, and the JSON data produced by `json.load` has unique
keys).  JSON numbers are modelled as integers; no claim involves numeric
values.  The analyzer state (`self.dependencies`, `self.warnings`) is
threaded explicitly. -/

/-- JSON-like values as produced by `json.load`. -/
inductive JValue where
  | str (s : String)
  | num (n : Int)
  | bool (b : Bool)
  | null
  | arr (items : List JValue)
  | obj (fields : List (String × JValue))

/-- Fields of a JSON object; non-objects have none (the source would raise
on attribute access there). -/
def fieldsOf : JValue → List (String × JValue)
  | .obj fields => fields
  | _ => []

/-- Items of a JSON array; iterating anything else is modelled as empty. -/
def listOf : JValue → List JValue
  | .arr items => items
  | _ => []

/-- Translation of `d.get(key, default)` for a string-valued entry, typed by
the dataclass annotations of the source (`form_id: str` etc.). -/
def strD (v : Option JValue) (default : String) : String :=
  match v with
  | some (.str s) => s
  | _ => default

/-- Translation of `d.get(key, default)` returning the stored JSON value. -/
def jvD (v : Option JValue) (default : JValue) : JValue :=
  match v with
  | some w => w
  | none => default

/-- Python truthiness of an optional JSON value, as used by
`properties.get(...) or properties.get(...)`. -/
def truthy : Option JValue → Bool
  | none => false
  | some (.str s) => !s.isEmpty
  | some (.num n) => n != 0
  | some (.bool b) => b
  | some .null => false
  | some (.arr items) => !items.isEmpty
  | some (.obj fields) => !fields.isEmpty

/-- Dependency record (dataclass `MDMDependency`); field types follow the
dataclass annotations. -/
structure MDMDependency where
  form_id : String
  form_name : String
  field_id : String
  field_label : String
  field_type : String
  options_source : String
  options_config : JValue
  has_ajax_cascade : Bool
  cascade_config : Option JValue

/-- Statistics summary produced by `_generate_statistics`; the two Python
counting dictionaries become insertion-ordered association lists. -/
structure Statistics where
  by_field_type : List (String × Nat)
  by_options_source : List (String × Nat)
  ajax_cascade_count : Nat
  unique_forms_with_mdm : Nat

/-- Analysis report (dataclass `AnalysisReport`). -/
structure AnalysisReport where
  application_id : String
  application_name : String
  total_forms : Nat
  total_mdm_fields : Nat
  dependencies : List MDMDependency
  warnings : List String
  statistics : Statistics

/-- Field types that commonly use MDM (class attribute `MDM_FIELD_TYPES`).
The Python set is modelled as a list used only for membership. -/
def MDM_FIELD_TYPES : List String := ["selectBox", "checkBox", "radio", "multiselect"]

/-- Options binder types that indicate an external data source (class
attribute `EXTERNAL_BINDERS`, an insertion-ordered dictionary). -/
def EXTERNAL_BINDERS : List (String × String) :=
  [("formOptions", "Form Options Binder"),
   ("jdbcOptions", "JDBC Options Binder"),
   ("restOptions", "REST Options Binder")]

/-- Embedding of `_identify_binder_type`: scan the binder keys in order and
return the first key that occurs as a substring of the lowercased class
name, else `unknown`. -/
def identifyBinderType (binder_class : String) : String :=
  match EXTERNAL_BINDERS.find?
      (fun kv => containsSub kv.1.data (binder_class.data.map Char.toLower)) with
  | some kv => kv.1
  | none => "unknown"

/-- Embedding of `_get_field_type`: when the class name contains a dot, take
the segment after the last dot and replace every occurrence of `SelectBox`
by `selectBox`; otherwise return the class name unchanged. -/
def getFieldType (class_name : String) : String :=
  if containsSub ".".data class_name.data then
    ⟨replaceSub "SelectBox".data "selectBox".data
      ((pySplitChar '.' class_name.data).getLastD [])⟩
  else class_name

/-- Properties dictionary of a field element (`element.get(properties, {})`
in `_analyze_mdm_field`). -/
def propertiesOf (element : JValue) : List (String × JValue) :=
  fieldsOf (jvD (List.lookup "properties" (fieldsOf element)) (.obj []))

/-- Options configuration of a candidate field: the `(options_source,
options_config)` pair computed by the two successive `if` statements of
`_analyze_mdm_field` (default `static`; a dictionary-valued `optionsBinder`
overrides it with the classified binder type and the nested binder
properties). -/
def fieldOptions (properties : List (String × JValue)) : String × JValue :=
  let options_config : JValue := .obj []
  let options_source := "static"
  let (options_source, options_config) :=
    match List.lookup "options" properties with
    | some v => ("static", v)
    | none => (options_source, options_config)
  match List.lookup "optionsBinder" properties with
  | some (.obj binder_fields) =>
    (identifyBinderType (strD (List.lookup "className" binder_fields) ""),
     jvD (List.lookup "properties" binder_fields) (.obj []))
  | _ => (options_source, options_config)

/-- AJAX cascade test of `_analyze_mdm_field`: Python truthiness of
`properties.get(controlField) or properties.get(cascadeOptions)`. -/
def fieldHasAjaxCascade (properties : List (String × JValue)) : Bool :=
  truthy (List.lookup "controlField" properties) ||
    truthy (List.lookup "cascadeOptions" properties)

/-- Embedding of `_analyze_mdm_field`: build the dependency record for a
candidate field and append it exactly when the options source is not
`static` or the field has an AJAX cascade. -/
def analyzeMdmField (element : JValue) (form_id form_name field_type : String)
    (deps : List MDMDependency) : List MDMDependency :=
  let properties := propertiesOf element
  let field_id := strD (List.lookup "id" properties) "unknown"
  let field_label := strD (List.lookup "label" properties) "unknown"
  let options_source := (fieldOptions properties).1
  let options_config := (fieldOptions properties).2
  let has_ajax_cascade := fieldHasAjaxCascade properties
  let cascade_config : Option JValue :=
    if has_ajax_cascade then
      some (.obj [("controlField", jvD (List.lookup "controlField" properties) .null),
                  ("cascadeOptions", jvD (List.lookup "cascadeOptions" properties) (.obj []))])
    else none
  if options_source != "static" || has_ajax_cascade then
    deps ++ [{ form_id := form_id, form_name := form_name, field_id := field_id,
               field_label := field_label, field_type := field_type,
               options_source := options_source, options_config := options_config,
               has_ajax_cascade := has_ajax_cascade, cascade_config := cascade_config }]
  else deps

/-- Embedding of `_search_elements`, the recursive walk over the form
definition: evaluate the current node as a candidate when its field-type tag
is an MDM field type, then recurse into `elements` and into
`properties.elements`.  The `fuel` parameter bounds the recursion depth,
mirroring the bounded interpreter stack of the source; every claim holds for
every fuel value. -/
def searchElements (fuel : Nat) (element : JValue) (form_id form_name : String)
    (deps : List MDMDependency) : List MDMDependency :=
  match fuel with
  | 0 => deps
  | fuel + 1 =>
    match element with
    | .obj fields =>
      let class_name := strD (List.lookup "className" fields) ""
      let field_type := getFieldType class_name
      let deps :=
        if field_type ∈ MDM_FIELD_TYPES then
          analyzeMdmField (.obj fields) form_id form_name field_type deps
        else deps
      let deps :=
        match List.lookup "elements" fields with
        | some v =>
          (listOf v).foldl (fun acc child => searchElements fuel child form_id form_name acc) deps
        | none => deps
      match List.lookup "properties" fields with
      | some (.obj props) =>
        match List.lookup "elements" props with
        | some v =>
          (listOf v).foldl (fun acc child => searchElements fuel child form_id form_name acc) deps
        | none => deps
      | _ => deps
    | _ => deps

/-- Embedding of `_analyze_form`: read the form identifier and name, then
walk the form JSON definition.  The source additionally decodes
string-encoded definitions with `json.loads`; the embedding takes already
structured values. -/
def analyzeForm (fuel : Nat) (form : JValue) (deps : List MDMDependency) :
    List MDMDependency :=
  let form_id := strD (List.lookup "id" (fieldsOf form)) "unknown"
  let form_name := strD (List.lookup "name" (fieldsOf form)) "unknown"
  let form_json := jvD (List.lookup "json" (fieldsOf form)) (.obj [])
  searchElements fuel form_json form_id form_name deps

/-- Embedding of `_get_forms`: the form list comes from the `forms` key,
falling back to `formDefinitionList`; when neither exists, a warning is
appended and the form list is empty. -/
def getForms (app_data : List (String × JValue)) (warnings : List String) :
    List JValue × List String :=
  match List.lookup "forms" app_data with
  | some v => (listOf v, warnings)
  | none =>
    match List.lookup "formDefinitionList" app_data with
    | some v => (listOf v, warnings)
    | none => ([], warnings ++ ["Could not find forms in application structure"])

/-- Loop body of `_generate_statistics`: count the dependency into the two
tally dictionaries and the cascade counter. -/
def bumpCount : List (String × Nat) → String → List (String × Nat)
  | [], k => [(k, 1)]
  | (k₀, v) :: rest, k => if k₀ = k then (k₀, v + 1) :: rest else (k₀, v) :: bumpCount rest k

/-- One iteration of the statistics loop. -/
def statsStep (stats : Statistics) (dep : MDMDependency) : Statistics :=
  { stats with
    by_field_type := bumpCount stats.by_field_type dep.field_type
    by_options_source := bumpCount stats.by_options_source dep.options_source
    ajax_cascade_count :=
      if dep.has_ajax_cascade then stats.ajax_cascade_count + 1
      else stats.ajax_cascade_count }

/-- Embedding of `_generate_statistics`: `unique_forms_with_mdm` is the
number of distinct form identifiers (`len(set(...))`), and the loop tallies
field types, options sources and cascade count. -/
def generateStatistics (deps : List MDMDependency) : Statistics :=
  let init : Statistics :=
    { by_field_type := []
      by_options_source := []
      ajax_cascade_count := 0
      unique_forms_with_mdm := (deps.map MDMDependency.form_id).dedup.length }
  deps.foldl statsStep init

/-- Embedding of `analyze`: extract the forms, analyze each form in order,
generate statistics and assemble the report. -/
def analyze (fuel : Nat) (app_data : List (String × JValue)) : AnalysisReport :=
  let fw := getForms app_data []
  let forms := fw.1
  let warnings := fw.2
  let deps := forms.foldl (fun acc form => analyzeForm fuel form acc) []
  let stats := generateStatistics deps
  { application_id := strD (List.lookup "appId" app_data) "unknown"
    application_name := strD (List.lookup "appName" app_data) "unknown"
    total_forms := forms.length
    total_mdm_fields := deps.length
    dependencies := deps
    warnings := warnings
    statistics := stats }

/-! Specification-side helpers for the claims about the analyzer. -/

/-- Class name read by `_search_elements` from a node
(`element.get(className, )` with an empty default). -/
def classNameOf : JValue → String
  | .obj fields => strD (List.lookup "className" fields) ""
  | _ => ""

/-- Nodes without child elements: no `elements` entry and no
`properties.elements` entry, so `_search_elements` does not recurse. -/
def noChildElements : JValue → Bool
  | .obj fields =>
    (List.lookup "elements" fields).isNone &&
      (match List.lookup "properties" fields with
       | some (.obj props) => (List.lookup "elements" props).isNone
       | _ => true)
  | _ => false

/-- Sum of the counts stored in a tally dictionary. -/
def sumVals (m : List (String × Nat)) : Nat :=
  (m.map Prod.snd).sum

end MDMAnalyzer

namespace HealthCheck

/-- C1: the overall status computed by `_calculate_overall_status` is
UNHEALTHY if at least one result is UNHEALTHY, otherwise DEGRADED if at
least one is DEGRADED, otherwise UNKNOWN if at least one is UNKNOWN,
otherwise HEALTHY; it is invariant under reordering of the results, and the
empty sequence yields HEALTHY. -/
theorem claim_C1_calculate_overall_status (rs rt : List CheckResult)
    (h : rs.Perm rt) :
    calculateOverallStatus rs = overallStatusSpec rs ∧
    calculateOverallStatus rs = calculateOverallStatus rt ∧
    calculateOverallStatus ([] : List CheckResult) = .HEALTHY := by
  refine ⟨?_, ?_, rfl⟩
  · simp only [calculateOverallStatus, overallStatusSpec, gt_iff_lt,
      List.countP_pos_iff, List.any_eq_true]
  · simp only [calculateOverallStatus, h.countP_eq]

/-- Witness for C1 at a concrete pair of permuted result lists. -/
theorem claim_C1_calculate_overall_status_witness :
    calculateOverallStatus
        [⟨"Web Interface", .DEGRADED, "m1"⟩, ⟨"Disk Space", .HEALTHY, "m2"⟩]
      = overallStatusSpec
        [⟨"Web Interface", .DEGRADED, "m1"⟩, ⟨"Disk Space", .HEALTHY, "m2"⟩] ∧
    calculateOverallStatus
        [⟨"Web Interface", .DEGRADED, "m1"⟩, ⟨"Disk Space", .HEALTHY, "m2"⟩]
      = calculateOverallStatus
        [⟨"Disk Space", .HEALTHY, "m2"⟩, ⟨"Web Interface", .DEGRADED, "m1"⟩] ∧
    calculateOverallStatus ([] : List CheckResult) = .HEALTHY :=
  claim_C1_calculate_overall_status
    [⟨"Web Interface", .DEGRADED, "m1"⟩, ⟨"Disk Space", .HEALTHY, "m2"⟩]
    [⟨"Disk Space", .HEALTHY, "m2"⟩, ⟨"Web Interface", .DEGRADED, "m1"⟩]
    (by decide)

/-- C8: the web-interface check records exactly one result, whose status is
HEALTHY on HTTP 200, DEGRADED on any other status code, UNHEALTHY on a
connection error, DEGRADED on a timeout and UNHEALTHY on any other
exception. -/
theorem claim_C8_check_web_interface (cfg : Config) (o : WebOutcome)
    (results : List CheckResult) :
    (checkWebInterface cfg o results).length = results.length + 1 ∧
    (checkWebInterface cfg o results).map CheckResult.status
      = results.map CheckResult.status ++ [webStatusSpec o] := by
  cases o with
  | response code =>
    by_cases h : code = 200 <;> simp [checkWebInterface, webStatusSpec, h]
  | connectionError => simp [checkWebInterface, webStatusSpec]
  | timeout => simp [checkWebInterface, webStatusSpec]
  | otherError e => simp [checkWebInterface, webStatusSpec]

/-- C6: the disk-space check classifies a parsed used percentage p as
HEALTHY when p is below 80, DEGRADED when p is at least 80 and below 90,
and UNHEALTHY when p is at least 90, with unparseable output yielding
UNKNOWN; the boundary values 79, 80 and 90 land in HEALTHY, DEGRADED and
UNHEALTHY respectively. -/
theorem claim_C6_check_disk_space (o : SubprocessOutcome)
    (results : List CheckResult) :
    (checkDiskSpace o results).map CheckResult.status
      = results.map CheckResult.status ++ [diskStatusSpec o] ∧
    (checkDiskSpace
        (.ran "Filesystem Size Used Avail Use% Mounted on\n/dev/sda1 100G 79G 21G 79% /")
        []).map CheckResult.status = [.HEALTHY] ∧
    (checkDiskSpace
        (.ran "Filesystem Size Used Avail Use% Mounted on\n/dev/sda1 100G 80G 20G 80% /")
        []).map CheckResult.status = [.DEGRADED] ∧
    (checkDiskSpace
        (.ran "Filesystem Size Used Avail Use% Mounted on\n/dev/sda1 100G 90G 10G 90% /")
        []).map CheckResult.status = [.UNHEALTHY] ∧
    (checkDiskSpace (.ran "garbage") []).map CheckResult.status = [.UNKNOWN] := by
  refine ⟨?_, by decide, by decide, by decide, by decide⟩
  cases o with
  | ran s =>
    simp only [checkDiskSpace, diskStatusSpec, diskUsedPercent?]
    (repeat' split) <;> simp_all
  | exc e => simp [checkDiskSpace, diskStatusSpec]

/-- Shape of the web-interface check: it appends exactly one result named
Web Interface. -/
theorem checkWebInterface_shape (cfg : Config) (o : WebOutcome)
    (results : List CheckResult) :
    ∃ r : CheckResult, checkWebInterface cfg o results = results ++ [r] ∧
      r.check_name = "Web Interface" := by
  cases o <;> simp only [checkWebInterface] <;> (repeat' split) <;> exact ⟨_, rfl, rfl⟩

/-- Shape of the database check: it appends exactly one result named
Database Connection. -/
theorem checkDatabaseConnection_shape (cfg : Config) (o : DbOutcome)
    (results : List CheckResult) :
    ∃ r : CheckResult, checkDatabaseConnection cfg o results = results ++ [r] ∧
      r.check_name = "Database Connection" := by
  cases o <;> simp only [checkDatabaseConnection] <;> (repeat' split) <;> exact ⟨_, rfl, rfl⟩

/-- Shape of the admin-console check: it appends exactly one result named
Admin Console. -/
theorem checkAdminConsole_shape (o : AdminOutcome) (results : List CheckResult) :
    ∃ r : CheckResult, checkAdminConsole o results = results ++ [r] ∧
      r.check_name = "Admin Console" := by
  cases o <;> simp only [checkAdminConsole] <;> (repeat' split) <;> exact ⟨_, rfl, rfl⟩

/-- Shape of the process check: it appends exactly one result named
Process Status. -/
theorem checkProcessRunning_shape (cfg : Config) (o : SubprocessOutcome)
    (results : List CheckResult) :
    ∃ r : CheckResult, checkProcessRunning cfg o results = results ++ [r] ∧
      r.check_name = "Process Status" := by
  cases o <;> simp only [checkProcessRunning] <;> (repeat' split) <;> exact ⟨_, rfl, rfl⟩

/-- Shape of the disk-space check: it appends exactly one result named
Disk Space. -/
theorem checkDiskSpace_shape (o : SubprocessOutcome) (results : List CheckResult) :
    ∃ r : CheckResult, checkDiskSpace o results = results ++ [r] ∧
      r.check_name = "Disk Space" := by
  cases o <;> simp only [checkDiskSpace] <;> (repeat' split) <;> exact ⟨_, rfl, rfl⟩

/-- Shape of the memory check: it appends exactly one result named
Memory Usage. -/
theorem checkMemoryUsage_shape (o : MemOutcome) (results : List CheckResult) :
    ∃ r : CheckResult, checkMemoryUsage o results = results ++ [r] ∧
      r.check_name = "Memory Usage" := by
  cases o <;> simp only [checkMemoryUsage] <;> (repeat' split) <;> exact ⟨_, rfl, rfl⟩

/-- C9: `run_all_checks` records exactly six results, one per check, in the
fixed order Web Interface, Database Connection, Admin Console, Process
Status, Disk Space, Memory Usage, whatever the outcome of each check. -/
theorem claim_C9_run_all_checks (cfg : Config) (o : Outcomes) :
    ((runAllChecks cfg o).2).map CheckResult.check_name
      = ["Web Interface", "Database Connection", "Admin Console",
         "Process Status", "Disk Space", "Memory Usage"] ∧
    ((runAllChecks cfg o).2).length = 6 := by
  simp only [runAllChecks]
  obtain ⟨r1, e1, n1⟩ := checkWebInterface_shape cfg o.web []
  rw [e1]
  obtain ⟨r2, e2, n2⟩ := checkDatabaseConnection_shape cfg o.db ([] ++ [r1])
  rw [e2]
  obtain ⟨r3, e3, n3⟩ := checkAdminConsole_shape o.admin (([] ++ [r1]) ++ [r2])
  rw [e3]
  obtain ⟨r4, e4, n4⟩ := checkProcessRunning_shape cfg o.process
    ((([] ++ [r1]) ++ [r2]) ++ [r3])
  rw [e4]
  obtain ⟨r5, e5, n5⟩ := checkDiskSpace_shape o.disk
    (((([] ++ [r1]) ++ [r2]) ++ [r3]) ++ [r4])
  rw [e5]
  obtain ⟨r6, e6, n6⟩ := checkMemoryUsage_shape o.memory
    ((((([] ++ [r1]) ++ [r2]) ++ [r3]) ++ [r4]) ++ [r5])
  rw [e6]
  simp [n1, n2, n3, n4, n5, n6]

end HealthCheck

namespace MDMAnalyzer

/-- Lowercasing never produces the uppercase letter O. -/
theorem toLower_ne_upper_o (c : Char) : Char.toLower c ≠ 'O' := by
  unfold Char.toLower
  show (if c.toNat ≥ 65 ∧ c.toNat ≤ 90 then Char.ofNat (c.toNat + 32) else c) ≠ 'O'
  split_ifs with h
  · obtain ⟨h1, h2⟩ := h
    generalize hn : c.toNat = m at h1 h2 ⊢
    interval_cases m <;> decide
  · intro hEq
    subst hEq
    exact h (by decide)

/-- Substring containment implies element containment. -/
theorem containsSub_mem {pat l : List Char} (h : containsSub pat l = true)
    {c : Char} (hc : c ∈ pat) : c ∈ l := by
  induction l with
  | nil =>
    simp only [containsSub, List.isEmpty_iff] at h
    subst h
    cases hc
  | cons a t ih =>
    simp only [containsSub, Bool.or_eq_true] at h
    rcases h with hpre | hrec
    · exact ( List.isPrefixOf_iff_prefix.mp hpre).subset hc
    · exact List.mem_cons_of_mem a (ih hrec)

/-- C2 (code bug): the binder keys of `EXTERNAL_BINDERS` contain uppercase
letters, so the case-sensitive Python test `key in binder_class.lower()`
never succeeds and `_identify_binder_type` returns `unknown` for every
class name — in particular for a JDBC binder class whose lowercase form
does contain the substring `jdbcoptions`. -/
theorem claim_C2_identify_binder_type :
    identifyBinderType "org.joget.apps.form.lib.JdbcOptionsBinder" = "unknown" ∧
    containsSub "jdbcoptions".data
      ("org.joget.apps.form.lib.JdbcOptionsBinder".data.map Char.toLower) = true ∧
    ∀ s : String, identifyBinderType s = "unknown" := by
  refine ⟨by decide, by decide, ?_⟩
  intro s
  unfold identifyBinderType
  have hnone : EXTERNAL_BINDERS.find?
      (fun kv => containsSub kv.1.data (s.data.map Char.toLower)) = none := by
    rw [List.find?_eq_none]
    intro kv hkv htrue
    have hO : 'O' ∈ kv.1.data := by
      simp only [EXTERNAL_BINDERS, List.mem_cons, List.not_mem_nil, or_false] at hkv
      rcases hkv with h | h | h <;> subst h <;> decide
    have hmem : 'O' ∈ s.data.map Char.toLower := containsSub_mem htrue hO
    rcases List.mem_map.mp hmem with ⟨c, _, hc⟩
    exact toLower_ne_upper_o c hc
  rw [hnone]

/-- C3: `_analyze_mdm_field` appends a dependency exactly when the computed
options source differs from static or the field has an AJAX cascade; a
field whose only options configuration is a static `options` property and
that has no cascade properties is never recorded, while a field with a
truthy `controlField` and no `optionsBinder` is recorded with a static
options source and the cascade flag set. -/
theorem claim_C3_analyze_mdm_field :
    (∀ (element : JValue) (f n t : String) (deps : List MDMDependency),
      (analyzeMdmField element f n t deps).length
        = deps.length +
            (if (fieldOptions (propertiesOf element)).1 ≠ "static"
                ∨ fieldHasAjaxCascade (propertiesOf element) = true then 1 else 0)) ∧
    analyzeMdmField
        (.obj [("properties", .obj [("id", .str "f1"), ("options", .arr [.obj []])])])
        "F" "N" "selectBox" [] = [] ∧
    (analyzeMdmField
        (.obj [("properties", .obj [("id", .str "f2"), ("controlField", .str "district")])])
        "F" "N" "selectBox" []).map
      (fun d => (d.options_source, d.has_ajax_cascade)) = [("static", true)] := by
  refine ⟨?_, rfl, rfl⟩
  intro e f n t deps
  by_cases hcond : ((fieldOptions (propertiesOf e)).1 != "static"
      || fieldHasAjaxCascade (propertiesOf e)) = true
  · have hp : (fieldOptions (propertiesOf e)).1 ≠ "static"
        ∨ fieldHasAjaxCascade (propertiesOf e) = true := by
      simpa [bne_iff_ne] using hcond
    simp [analyzeMdmField, hcond, hp]
  · have hp : ¬((fieldOptions (propertiesOf e)).1 ≠ "static"
        ∨ fieldHasAjaxCascade (propertiesOf e) = true) := by
      simpa [bne_iff_ne] using hcond
    simp [analyzeMdmField, hcond, hp]

/-- C4: every completed scan reports `total_mdm_fields` equal to the length
of the dependency list. -/
theorem claim_C4_analyze_total (fuel : Nat) (app_data : List (String × JValue)) :
    (analyze fuel app_data).total_mdm_fields
      = (analyze fuel app_data).dependencies.length := rfl

/-- Splitting never yields an empty list of segments. -/
theorem pySplitChar_ne_nil (sep : Char) (cs : List Char) :
    pySplitChar sep cs ≠ [] := by
  cases cs with
  | nil => simp [pySplitChar]
  | cons c rest =>
    simp only [pySplitChar]
    split
    · simp
    · split <;> simp

/-- Splitting a list without the separator yields that list as the only
segment. -/
theorem pySplitChar_no_sep {sep : Char} {cs : List Char} (h : sep ∉ cs) :
    pySplitChar sep cs = [cs] := by
  induction cs with
  | nil => rfl
  | cons c rest ih =>
    simp only [List.mem_cons, not_or] at h
    obtain ⟨h1, h2⟩ := h
    rw [pySplitChar, if_neg (fun hh => h1 hh.symm), ih h2]

/-- Splitting a list with at least one separator yields at least two
segments. -/
theorem pySplitChar_sep_two_le (sep : Char) (pre rest : List Char) :
    2 ≤ (pySplitChar sep (pre ++ sep :: rest)).length := by
  induction pre with
  | nil =>
    rw [List.nil_append, pySplitChar, if_pos rfl]
    have h := List.length_pos.mpr (pySplitChar_ne_nil sep rest)
    simp only [List.length_cons]
    omega
  | cons c pre ih =>
    rw [List.cons_append, pySplitChar]
    by_cases hc : c = sep
    · rw [if_pos hc]
      have h := List.length_pos.mpr (pySplitChar_ne_nil sep (pre ++ sep :: rest))
      simp only [List.length_cons]
      omega
    · rw [if_neg hc]
      rcases hsplit : pySplitChar sep (pre ++ sep :: rest) with _ | ⟨g, gs⟩
      · exact absurd hsplit (pySplitChar_ne_nil sep _)
      · rw [hsplit] at ih
        simpa using ih

/-- The last segment of a split at a separator whose final occurrence is
followed by `rest` is exactly `rest`. -/
theorem pySplitChar_getLastD (sep : Char) (pre rest : List Char) (h : sep ∉ rest) :
    (pySplitChar sep (pre ++ sep :: rest)).getLastD [] = rest := by
  induction pre with
  | nil =>
    rw [List.nil_append, pySplitChar, if_pos rfl, pySplitChar_no_sep h]
    rfl
  | cons c pre ih =>
    rw [List.cons_append, pySplitChar]
    by_cases hc : c = sep
    · rw [if_pos hc, List.getLastD_cons]
      exact ih
    · rw [if_neg hc]
      rcases hsplit : pySplitChar sep (pre ++ sep :: rest) with _ | ⟨g, gs⟩
      · exact absurd hsplit (pySplitChar_ne_nil sep _)
      · have hlen := pySplitChar_sep_two_le sep pre rest
        rw [hsplit] at hlen
        rw [hsplit, List.getLastD_cons] at ih
        show ((c :: g) :: gs).getLastD [] = rest
        rw [List.getLastD_cons]
        cases gs with
        | nil => simp at hlen
        | cons y t =>
          rw [List.getLastD_cons]
          rw [List.getLastD_cons] at ih
          exact ih

/-- A list around a separator occurrence contains the separator as a
substring. -/
theorem containsSub_sep (sep : Char) (pre rest : List Char) :
    containsSub [sep] (pre ++ sep :: rest) = true := by
  induction pre with
  | nil => simp [containsSub, List.isPrefixOf]
  | cons c pre ih => simp [containsSub, ih]

/-- C5 counterexample: identifiers suffixed by `SelectBox` are not
classified uniformly as `selectBox`.  A bare `SelectBox` keeps its capital
S (no dot, so no replacement happens) and a dotted `a.FancySelectBox`
becomes `FancyselectBox`; neither resulting tag is an MDM field type, so
neither node is evaluated as a candidate. -/
theorem claim_C5_field_type_counterexample :
    getFieldType "SelectBox" = "SelectBox" ∧
    ("SelectBox".data <:+ "SelectBox".data) ∧
    getFieldType "SelectBox" ≠ "selectBox" ∧
    ("SelectBox".data <:+ "a.FancySelectBox".data) ∧
    getFieldType "a.FancySelectBox" = "FancyselectBox" ∧
    getFieldType "a.FancySelectBox" ≠ "selectBox" ∧
    "SelectBox" ∉ MDM_FIELD_TYPES ∧ "FancyselectBox" ∉ MDM_FIELD_TYPES := by
  refine ⟨by decide, by decide, by decide, by decide, by decide, by decide,
    by decide, by decide⟩

/-- C5 (amended): when the class name contains no dot it is returned
unchanged; when it contains a dot, the tag is the segment after the last
dot with every occurrence of the substring `SelectBox` replaced by
`selectBox`; and a node without child elements contributes to the
dependency scan exactly through the candidate evaluation, which happens if
and only if its tag is one of the MDM field types. -/
theorem claim_C5_field_type_amended :
    (∀ c : String, containsSub ".".data c.data = false → getFieldType c = c) ∧
    (∀ pre rest : List Char, '.' ∉ rest →
      getFieldType ⟨pre ++ '.' :: rest⟩
        = ⟨replaceSub "SelectBox".data "selectBox".data rest⟩) ∧
    (∀ (fuel : Nat) (element : JValue) (f n : String) (deps : List MDMDependency),
      noChildElements element = true →
      searchElements (fuel + 1) element f n deps
        = if getFieldType (classNameOf element) ∈ MDM_FIELD_TYPES then
            analyzeMdmField element f n (getFieldType (classNameOf element)) deps
          else deps) := by
  refine ⟨?_, ?_, ?_⟩
  · intro c h
    simp [getFieldType, h]
  · intro pre rest h
    show (if containsSub ".".data (pre ++ '.' :: rest) then _ else _) = _
    rw [if_pos (by simpa using containsSub_sep '.' pre rest)]
    rw [show (pySplitChar '.' (pre ++ '.' :: rest)).getLastD []
          = rest from pySplitChar_getLastD '.' pre rest h]
  · intro fuel e f n deps h
    cases e with
    | obj fields =>
      simp only [noChildElements, Bool.and_eq_true, Option.isNone_iff_eq_none] at h
      obtain ⟨h1, h2⟩ := h
      simp only [searchElements, classNameOf, h1]
      rcases hp : List.lookup "properties" fields with _ | v
      · simp
      · rw [hp] at h2
        cases v with
        | obj props =>
          simp only [Option.isNone_iff_eq_none] at h2
          simp [h2]
        | str s => simp
        | num m => simp
        | bool b => simp
        | null => simp
        | arr items => simp
    | str s => simp [noChildElements] at h
    | num m => simp [noChildElements] at h
    | bool b => simp [noChildElements] at h
    | null => simp [noChildElements] at h
    | arr items => simp [noChildElements] at h

/-- Witness for C5 (amended) at concrete inputs: a dotless class name, the
standard select-box class name, and a childless select-box node carrying an
options binder. -/
theorem claim_C5_field_type_amended_witness :
    getFieldType "textfield" = "textfield" ∧
    getFieldType ⟨"org.joget.apps.form.lib".data ++ '.' :: "SelectBox".data⟩
      = ⟨replaceSub "SelectBox".data "selectBox".data "SelectBox".data⟩ ∧
    searchElements 1
        (.obj [("className", .str "org.joget.apps.form.lib.SelectBox"),
               ("properties", .obj [("id", .str "x"),
                 ("optionsBinder", .obj [("className", .str "B")])])])
        "F" "N" []
      = if getFieldType (classNameOf
            (.obj [("className", .str "org.joget.apps.form.lib.SelectBox"),
                   ("properties", .obj [("id", .str "x"),
                     ("optionsBinder", .obj [("className", .str "B")])])]))
            ∈ MDM_FIELD_TYPES then
          analyzeMdmField
            (.obj [("className", .str "org.joget.apps.form.lib.SelectBox"),
                   ("properties", .obj [("id", .str "x"),
                     ("optionsBinder", .obj [("className", .str "B")])])])
            "F" "N"
            (getFieldType (classNameOf
              (.obj [("className", .str "org.joget.apps.form.lib.SelectBox"),
                     ("properties", .obj [("id", .str "x"),
                       ("optionsBinder", .obj [("className", .str "B")])])])))
            []
        else [] := by
  have h := claim_C5_field_type_amended
  exact ⟨h.1 "textfield" (by decide),
    h.2.1 "org.joget.apps.form.lib".data "SelectBox".data (by decide),
    h.2.2 0 _ "F" "N" [] (by decide)⟩

/-- C7: when neither `forms` nor `formDefinitionList` is present the scan
does not fail: the form list is empty, exactly one warning is recorded and
the report has zero total forms; when `forms` is present its value is used,
otherwise `formDefinitionList` is the fallback. -/
theorem claim_C7_get_forms :
    (∀ (app : List (String × JValue)) (w : List String),
      List.lookup "forms" app = none → List.lookup "formDefinitionList" app = none →
      getForms app w = ([], w ++ ["Could not find forms in application structure"])) ∧
    (∀ (fuel : Nat) (app : List (String × JValue)),
      List.lookup "forms" app = none → List.lookup "formDefinitionList" app = none →
      (analyze fuel app).total_forms = 0 ∧
      (analyze fuel app).warnings = ["Could not find forms in application structure"]) ∧
    (∀ (app : List (String × JValue)) (w : List String) (v : JValue),
      List.lookup "forms" app = some v → getForms app w = (listOf v, w)) ∧
    (∀ (app : List (String × JValue)) (w : List String) (v : JValue),
      List.lookup "forms" app = none → List.lookup "formDefinitionList" app = some v →
      getForms app w = (listOf v, w)) := by
  refine ⟨?_, ?_, ?_, ?_⟩
  · intro app w h1 h2
    simp [getForms, h1, h2]
  · intro fuel app h1 h2
    constructor <;> simp [analyze, getForms, h1, h2]
  · intro app w v h1
    simp [getForms, h1]
  · intro app w v h1 h2
    simp [getForms, h1, h2]

/-- Witness for C7 at concrete application data: data with neither key,
data with `forms`, and data with only `formDefinitionList`. -/
theorem claim_C7_get_forms_witness :
    getForms [("appId", .str "app")] []
      = ([], ["Could not find forms in application structure"]) ∧
    (analyze 1 [("appId", .str "app")]).total_forms = 0 ∧
    (analyze 1 [("appId", .str "app")]).warnings
      = ["Could not find forms in application structure"] ∧
    getForms [("forms", .arr [.obj []])] [] = ([.obj []], []) ∧
    getForms [("formDefinitionList", .arr [.obj []])] [] = ([.obj []], []) := by
  have h := claim_C7_get_forms
  exact ⟨h.1 [("appId", .str "app")] [] rfl rfl,
    (h.2.1 1 [("appId", .str "app")] rfl rfl).1,
    (h.2.1 1 [("appId", .str "app")] rfl rfl).2,
    h.2.2.1 [("forms", .arr [.obj []])] [] (.arr [.obj []]) rfl,
    h.2.2.2 [("formDefinitionList", .arr [.obj []])] [] (.arr [.obj []]) rfl rfl⟩

/-- Bumping a tally dictionary increases the sum of its counts by one. -/
theorem sumVals_bumpCount (m : List (String × Nat)) (k : String) :
    sumVals (bumpCount m k) = sumVals m + 1 := by
  induction m with
  | nil => rfl
  | cons hd tl ih =>
    obtain ⟨k₀, v⟩ := hd
    simp only [bumpCount]
    split_ifs with h
    · simp only [sumVals, List.map_cons, List.sum_cons]
      omega
    · simp only [sumVals, List.map_cons, List.sum_cons] at ih ⊢
      omega

/-- Invariants of the statistics loop: each processed dependency adds one
to both tally sums, the cascade counter counts the cascading dependencies,
and the distinct-forms count is untouched. -/
theorem statsFold_invariant (deps : List MDMDependency) :
    ∀ s : Statistics,
      sumVals (deps.foldl statsStep s).by_field_type
        = sumVals s.by_field_type + deps.length ∧
      sumVals (deps.foldl statsStep s).by_options_source
        = sumVals s.by_options_source + deps.length ∧
      (deps.foldl statsStep s).ajax_cascade_count
        = s.ajax_cascade_count + deps.countP (fun d => d.has_ajax_cascade) ∧
      (deps.foldl statsStep s).unique_forms_with_mdm = s.unique_forms_with_mdm := by
  induction deps with
  | nil => intro s; simp [sumVals]
  | cons d ds ih =>
    intro s
    obtain ⟨i1, i2, i3, i4⟩ := ih (statsStep s d)
    simp only [List.foldl_cons, List.length_cons, List.countP_cons]
    refine ⟨?_, ?_, ?_, ?_⟩
    · rw [i1]
      show sumVals (bumpCount s.by_field_type d.field_type) + ds.length = _
      rw [sumVals_bumpCount]
      omega
    · rw [i2]
      show sumVals (bumpCount s.by_options_source d.options_source) + ds.length = _
      rw [sumVals_bumpCount]
      omega
    · rw [i3]
      show (if d.has_ajax_cascade then s.ajax_cascade_count + 1
            else s.ajax_cascade_count) + ds.countP (fun d => d.has_ajax_cascade) = _
      by_cases hd : d.has_ajax_cascade <;> simp [hd]
      all_goals omega
    · exact i4

/-- C10: the statistics are internally consistent with the dependency list:
both tallies sum to the number of dependencies, the cascade counter counts
the cascading dependencies (hence is at most the total) and the
distinct-forms count is the number of distinct form identifiers. -/
theorem claim_C10_statistics (deps : List MDMDependency) :
    sumVals (generateStatistics deps).by_field_type = deps.length ∧
    sumVals (generateStatistics deps).by_options_source = deps.length ∧
    (generateStatistics deps).ajax_cascade_count
      = deps.countP (fun d => d.has_ajax_cascade) ∧
    (generateStatistics deps).ajax_cascade_count ≤ deps.length ∧
    (generateStatistics deps).unique_forms_with_mdm
      = (deps.map MDMDependency.form_id).toFinset.card := by
  obtain ⟨h1, h2, h3, h4⟩ := statsFold_invariant deps
    { by_field_type := []
      by_options_source := []
      ajax_cascade_count := 0
      unique_forms_with_mdm := (deps.map MDMDependency.form_id).dedup.length }
  refine ⟨?_, ?_, ?_, ?_, ?_⟩
  · simpa [generateStatistics, sumVals] using h1
  · simpa [generateStatistics, sumVals] using h2
  · simpa [generateStatistics] using h3
  · have hle := List.countP_le_length (p := fun d => d.has_ajax_cascade) (l := deps)
    have h3s : (generateStatistics deps).ajax_cascade_count
        = deps.countP (fun d => d.has_ajax_cascade) := by
      simpa [generateStatistics] using h3
    omega
  · rw [List.card_toFinset]
    simpa [generateStatistics] using h4

end MDMAnalyzer
